import Mathlib

/-!
Verification of the command-interpretation, dispatch, cross-platform
synchronization and secret-resolution core of the
azure-vscode-github-asana-assistant repository.

The Python source is shallowly embedded:
* Python dict/list/str/int/bool/None values become the inductive `JVal`;
* each external collaborator call (Asana, GitHub, VSCode, the language
  model, the vault) is an oracle carried in an environment record, and
  every call is logged as an `Event` in an explicit trace;
* a raised Python exception is `Except.error` in the trace monad `M`;
  `try/except` blocks become `M.tryCatch`.
-/

/-- One left-to-right pass of Python `str.replace`, with fuel bounded by
the subject length (each step consumes at least one character).
An empty pattern leaves the subject unchanged; the assistant never
replaces an empty pattern. -/
def replaceLoop (pat repl : List Char) : Nat → List Char → List Char
  | 0, s => s
  | _ + 1, [] => []
  | fuel + 1, c :: cs =>
    if !pat.isEmpty && pat.isPrefixOf (c :: cs) then
      repl ++ replaceLoop pat repl fuel ((c :: cs).drop pat.length)
    else c :: replaceLoop pat repl fuel cs

/-- Python `s.replace(pat, repl)`. -/
def pyReplace (s pat repl : String) : String :=
  ⟨replaceLoop pat.data repl.data s.data.length s.data⟩

/-- Python `s.upper()`. -/
def pyUpper (s : String) : String := ⟨s.data.map Char.toUpper⟩

/-- Python `s.lower()`. -/
def pyLower (s : String) : String := ⟨s.data.map Char.toLower⟩

/-- Python `s.strip()`. -/
def pyStrip (s : String) : String :=
  ⟨(((s.data.dropWhile Char.isWhitespace).reverse).dropWhile Char.isWhitespace).reverse⟩

/-- A Python value as it occurs in the assistant's dict-based data flow:
strings, integers, floats, booleans, None, lists and dicts. -/
inductive JVal : Type where
  | str (s : String)
  | num (n : Int)
  | flt (q : ℚ)
  | bool (b : Bool)
  | null
  | arr (xs : List JVal)
  | obj (fields : List (String × JVal))
deriving Inhabited

namespace JVal

/-- Lookup of a key in a dict, first binding wins (dict construction below
removes earlier duplicates, mirroring Python dict-merge overriding). -/
def lookupField : List (String × JVal) → String → Option JVal
  | [], _ => none
  | (k, v) :: rest, key => if k = key then some v else lookupField rest key

/-- Python `d.get(k)` when `d` is a dict: `some` value or `none`. -/
def getField : JVal → String → Option JVal
  | .obj fs, key => lookupField fs key
  | _, _ => none

/-- Python `d.get(k)`, with an absent key materialized as `None`. -/
def dget (d : JVal) (key : String) : JVal :=
  (getField d key).getD .null

/-- Python `d.get(k, default)`: the default is used only when the key is
absent, a stored `None` is returned as is. -/
def dgetD (d : JVal) (key : String) (default : JVal) : JVal :=
  (getField d key).getD default

/-- Python truthiness of a value (`bool(v)`). -/
def truthy : JVal → Bool
  | .str s => !(s == "")
  | .num n => !(n == 0)
  | .flt q => !(q == 0)
  | .bool b => b
  | .null => false
  | .arr xs => !xs.isEmpty
  | .obj fs => !fs.isEmpty

/-- Python `a or b`. -/
def pyOr (a b : JVal) : JVal :=
  if a.truthy then a else b

/-- Python `v == s` for a string literal `s`: true exactly when `v` is an
equal string (no cross-type equality involves a `str`). -/
def isStr (v : JVal) (s : String) : Bool :=
  match v with
  | .str t => t == s
  | _ => false

mutual

/-- Python `repr` of a value, used for elements inside container reprs.
Dict braces are part of the rendered data, not of any control flow. -/
def pyRepr : JVal → String
  | .str s => "\x27" ++ s ++ "\x27"
  | .num n => toString n
  | .flt q => toString q
  | .bool true => "True"
  | .bool false => "False"
  | .null => "None"
  | .arr xs => "[" ++ pyReprList xs ++ "]"
  | .obj fs => "\x7b" ++ pyReprFields fs ++ "\x7d"

/-- Comma-separated reprs of list elements. -/
def pyReprList : List JVal → String
  | [] => ""
  | [x] => pyRepr x
  | x :: xs => pyRepr x ++ ", " ++ pyReprList xs

/-- Comma-separated reprs of dict items. -/
def pyReprFields : List (String × JVal) → String
  | [] => ""
  | [(k, v)] => "\x27" ++ k ++ "\x27: " ++ pyRepr v
  | (k, v) :: fs => "\x27" ++ k ++ "\x27: " ++ pyRepr v ++ ", " ++ pyReprFields fs

end

/-- Python `str(v)`, as applied inside f-strings. -/
def pyStr : JVal → String
  | .str s => s
  | v => pyRepr v

mutual

/-- Python `==` between two values: numeric equality identifies booleans
with 0/1; strings, lists compare structurally; `None == None`.
Dict comparison is modelled structurally on the field list (field order
is not abstracted away; no flow verified here compares two dicts). -/
def pyEq : JVal → JVal → Bool
  | .num a, .num b => a == b
  | .num a, .bool b => a == (if b then 1 else 0)
  | .bool a, .num b => (if a then (1 : Int) else 0) == b
  | .bool a, .bool b => a == b
  | .flt a, .flt b => a == b
  | .flt a, .num b => a == (b : ℚ)
  | .num a, .flt b => (a : ℚ) == b
  | .str a, .str b => a == b
  | .null, .null => true
  | .arr as, .arr bs => pyEqList as bs
  | .obj as, .obj bs => pyEqFields as bs
  | _, _ => false

/-- Elementwise Python equality of lists. -/
def pyEqList : List JVal → List JVal → Bool
  | [], [] => true
  | a :: as, b :: bs => pyEq a b && pyEqList as bs
  | _, _ => false

/-- Itemwise equality of dict field lists. -/
def pyEqFields : List (String × JVal) → List (String × JVal) → Bool
  | [], [] => true
  | (j, a) :: as, (k, b) :: bs => j == k && pyEq a b && pyEqFields as bs
  | _, _ => false

end

end JVal

open JVal

/-- One chat message sent to the language-model collaborator. -/
structure Msg : Type where
  role : String
  content : String
deriving Inhabited

/-- One call on an external collaborator, as logged in the execution
trace in the order the Python code awaits the calls. -/
inductive Event : Type where
  | asanaCreateTask (projectGid : JVal) (taskData : JVal)
  | asanaGetTasks (projectGid : JVal) (completed : JVal)
  | asanaUpdateTask (taskGid : JVal) (updates : JVal)
  | asanaSearchTasks (query : JVal) (projectGid : JVal)
  | asanaGetTaskByGid (taskGid : JVal)
  | asanaAddCommentToTask (taskGid : JVal) (comment : String)
  | asanaGetProjects
  | githubCreateIssue (repoName : JVal) (issueData : JVal)
  | githubGetIssues (repoName : JVal) (state : JVal)
  | githubCreatePullRequest (repoName : JVal) (prData : JVal)
  | githubGetRepositories
  | githubAddCommentToIssue (repoName : JVal) (issueNumber : JVal) (comment : String)
  | vscodeOpenProject (projectPath : JVal)
  | vscodeSetupProjectStructure (projectType : JVal)
  | vscodeCreateTask (taskConfig : JVal)
  | vscodeInstallExtension (extensionId : JVal)
  | vscodeGetWorkspaceFiles
  | vscodeGetGitStatus
  | llmClassify (userInput : String)
  | llmComplete (messages : List Msg)

/-- The execution monad: a computation appends collaborator calls to the
trace and either returns a value or propagates a raised exception
(carried as its message string). A caught exception keeps the trace of
the calls already made, exactly as in Python. -/
def M (α : Type) : Type :=
  List Event → Except String α × List Event

namespace M

/-- Return a value, no calls made. -/
def pure (a : α) : M α := fun tr => (.ok a, tr)

/-- Sequencing: a raised exception aborts the continuation. -/
def bind (x : M α) (f : α → M β) : M β := fun tr =>
  match x tr with
  | (.ok a, tr1) => f a tr1
  | (.error e, tr1) => (.error e, tr1)

/-- Raise an exception with message `e`. -/
def throw (e : String) : M α := fun tr => (.error e, tr)

/-- Python `try: x except Exception as e: h e`. -/
def tryCatch (x : M α) (h : String → M α) : M α := fun tr =>
  match x tr with
  | (.ok a, tr1) => (.ok a, tr1)
  | (.error e, tr1) => h e tr1

/-- Perform one collaborator call: the call is logged, then its outcome
(oracle-determined) is returned or raised. -/
def call (ev : Event) (outcome : Except String α) : M α := fun tr =>
  (outcome, tr ++ [ev])

/-- Python subscript `v[k]` on a value expected to be a dict: raises on a
missing key or a non-dict value. -/
def subscript (v : JVal) (k : String) : M JVal :=
  match getField v k with
  | some x => pure x
  | none => throw ("\x27" ++ k ++ "\x27")

end M

/-- Outcome of one vault round-trip for a single secret. -/
inductive VaultResp : Type where
  | ok (value : String)
  | err (msg : String)

/-- All collaborator oracles one command execution consults. Each field
gives, per argument tuple, the outcome the external service would
produce for that call; these services are outside the verified core. -/
structure Env : Type where
  /-- Embedding of `settings.get_openai_api_key()` resolution outcome (never raises). -/
  openaiKey : Option String
  /-- Text of the single completion choice the classifier call returns,
  or the exception the completion call raises. -/
  intentText : Except String String
  /-- Embedding of `json.loads` on the classifier reply: parsed value, or the message
  of the raised decode error. -/
  jsonLoads : String → Except String JVal
  /-- Embedding of `json.dumps(context, indent=2)` rendering used inside prompts. -/
  jsonDumps : JVal → String
  /-- Conversational completion: reply text for a given message list, or
  a raised exception. -/
  llmComplete : List Msg → Except String String
  asanaCreateTask : JVal → JVal → Except String JVal
  asanaGetTasks : JVal → JVal → Except String JVal
  asanaUpdateTask : JVal → JVal → Except String JVal
  asanaSearchTasks : JVal → JVal → Except String JVal
  asanaGetTaskByGid : JVal → Except String JVal
  asanaAddCommentToTask : JVal → String → Except String JVal
  asanaGetProjects : Except String (List JVal)
  githubCreateIssue : JVal → JVal → Except String JVal
  githubGetIssues : JVal → JVal → Except String (List JVal)
  githubCreatePullRequest : JVal → JVal → Except String JVal
  githubGetRepositories : Except String (List JVal)
  githubAddCommentToIssue : JVal → JVal → String → Except String JVal
  vscodeOpenProject : JVal → Except String Bool
  vscodeSetupProjectStructure : JVal → Except String Bool
  vscodeCreateTask : JVal → Except String Bool
  vscodeInstallExtension : JVal → Except String Bool
  vscodeGetWorkspaceFiles : Except String (List String)
  vscodeGetGitStatus : Except String JVal

/-- The fixed system prompt of `AIAssistant` (assistant_core.py). -/
def system_prompt : String :=
  "\n        You are an AI assistant that helps developers integrate their workflow between Asana, GitHub, and VSCode.\n        \n        Your capabilities include:\n        1. Managing Asana tasks and projects\n        2. Creating and managing GitHub issues and pull requests\n        3. Setting up VSCode workspaces and configurations\n        4. Syncing information between all three platforms\n        5. Providing intelligent suggestions for project management\n        \n        Always provide clear, actionable responses and ask for clarification when needed.\n        "

/-- Embedding of `AIAssistant._ensure_openai_initialized`: raises when the API key
resolves to a falsy value, otherwise succeeds. -/
def ensure_openai_initialized (env : Env) : M Unit :=
  match env.openaiKey with
  | some _ => M.pure ()
  | none => M.throw "OpenAI API key not found in Key Vault or environment variables"

/-- Embedding of `AIAssistant._analyze_intent`: initialization happens before the
`try` block, so a missing key propagates unwrapped; a completion failure
or an unparseable reply is re-raised as `Failed to analyze intent: ...`;
a parsed reply is returned verbatim. -/
def analyze_intent (env : Env) (user_input : String) : M JVal :=
  M.bind (ensure_openai_initialized env) (fun _ =>
    M.tryCatch
      (M.bind (M.call (.llmClassify user_input) env.intentText) (fun intent_text =>
        match env.jsonLoads intent_text with
        | .ok j => M.pure j
        | .error e => M.throw e))
      (fun e => M.throw ("Failed to analyze intent: " ++ e)))

/-- Embedding of `AIAssistant._handle_asana_action`. -/
def handle_asana_action (env : Env) (action : JVal) (parameters : JVal)
    (user_input : String) : M JVal :=
  M.tryCatch
    (if action.isStr "create_task" || action.isStr "create_new_task" then
      let tn0 := pyOr (dget parameters "task_name") (dget parameters "name")
      let task_name := if tn0.truthy then tn0 else
        .str (pyStrip (pyReplace (pyReplace user_input "Create a task for" "") "Create task" ""))
      let task_data : JVal := .obj [("name", task_name),
        ("notes", dgetD parameters "notes" (.str ("Task created via AI assistant: " ++ user_input)))]
      M.bind (M.call (.asanaCreateTask (dget parameters "project_gid") task_data)
          (env.asanaCreateTask (dget parameters "project_gid") task_data)) (fun task =>
        M.pure (.obj [("action", .str "task_created"), ("data", task)]))
    else if action.isStr "get_tasks" then
      M.bind (M.call (.asanaGetTasks (dget parameters "project_gid") (dgetD parameters "completed" (.bool false)))
          (env.asanaGetTasks (dget parameters "project_gid") (dgetD parameters "completed" (.bool false)))) (fun tasks =>
        M.pure (.obj [("action", .str "tasks_retrieved"), ("data", tasks)]))
    else if action.isStr "update_task" then
      M.bind (M.call (.asanaUpdateTask (dget parameters "task_gid") (dget parameters "updates"))
          (env.asanaUpdateTask (dget parameters "task_gid") (dget parameters "updates"))) (fun task =>
        M.pure (.obj [("action", .str "task_updated"), ("data", task)]))
    else if action.isStr "search_tasks" then
      M.bind (M.call (.asanaSearchTasks (dget parameters "query") (dget parameters "project_gid"))
          (env.asanaSearchTasks (dget parameters "query") (dget parameters "project_gid"))) (fun tasks =>
        M.pure (.obj [("action", .str "tasks_found"), ("data", tasks)]))
    else
      M.pure (.obj [("error", .str ("Unknown Asana action: " ++ pyStr action))]))
    (fun e => M.pure (.obj [("error", .str ("Asana action failed: " ++ e))]))

/-- Embedding of `AIAssistant._handle_github_action`. -/
def handle_github_action (env : Env) (action : JVal) (parameters : JVal)
    (_user_input : String) : M JVal :=
  M.tryCatch
    (if action.isStr "create_issue" then
      M.bind (M.call (.githubCreateIssue (dget parameters "repo_name") (dget parameters "issue_data"))
          (env.githubCreateIssue (dget parameters "repo_name") (dget parameters "issue_data"))) (fun issue =>
        M.pure (.obj [("action", .str "issue_created"), ("data", issue)]))
    else if action.isStr "get_issues" then
      M.bind (M.call (.githubGetIssues (dget parameters "repo_name") (dgetD parameters "state" (.str "open")))
          (env.githubGetIssues (dget parameters "repo_name") (dgetD parameters "state" (.str "open")))) (fun issues =>
        M.pure (.obj [("action", .str "issues_retrieved"), ("data", .arr issues)]))
    else if action.isStr "create_pr" then
      M.bind (M.call (.githubCreatePullRequest (dget parameters "repo_name") (dget parameters "pr_data"))
          (env.githubCreatePullRequest (dget parameters "repo_name") (dget parameters "pr_data"))) (fun pr =>
        M.pure (.obj [("action", .str "pr_created"), ("data", pr)]))
    else if action.isStr "get_repositories" then
      M.bind (M.call .githubGetRepositories env.githubGetRepositories) (fun repos =>
        M.pure (.obj [("action", .str "repositories_retrieved"), ("data", .arr repos)]))
    else
      M.pure (.obj [("error", .str ("Unknown GitHub action: " ++ pyStr action))]))
    (fun e => M.pure (.obj [("error", .str ("GitHub action failed: " ++ e))]))

/-- Embedding of `AIAssistant._handle_vscode_action`. -/
def handle_vscode_action (env : Env) (action : JVal) (parameters : JVal)
    (_user_input : String) : M JVal :=
  M.tryCatch
    (if action.isStr "open_project" then
      M.bind (M.call (.vscodeOpenProject (dget parameters "project_path"))
          (env.vscodeOpenProject (dget parameters "project_path"))) (fun success =>
        M.pure (.obj [("action", .str "project_opened"), ("success", .bool success)]))
    else if action.isStr "setup_project" then
      M.bind (M.call (.vscodeSetupProjectStructure (dget parameters "project_type"))
          (env.vscodeSetupProjectStructure (dget parameters "project_type"))) (fun success =>
        M.pure (.obj [("action", .str "project_setup"), ("success", .bool success)]))
    else if action.isStr "create_task" then
      M.bind (M.call (.vscodeCreateTask (dget parameters "task_config"))
          (env.vscodeCreateTask (dget parameters "task_config"))) (fun success =>
        M.pure (.obj [("action", .str "vscode_task_created"), ("success", .bool success)]))
    else if action.isStr "install_extension" then
      M.bind (M.call (.vscodeInstallExtension (dget parameters "extension_id"))
          (env.vscodeInstallExtension (dget parameters "extension_id"))) (fun success =>
        M.pure (.obj [("action", .str "extension_installed"), ("success", .bool success)]))
    else
      M.pure (.obj [("error", .str ("Unknown VSCode action: " ++ pyStr action))]))
    (fun e => M.pure (.obj [("error", .str ("VSCode action failed: " ++ e))]))

/-- Linear scan `next((i for i in issues if i["number"] == target), None)`:
lazily subscripts each scanned issue, so a malformed element raises. -/
def find_issue (issues : List JVal) (target : JVal) : M (Option JVal) :=
  match issues with
  | [] => M.pure none
  | i :: rest =>
    M.bind (M.subscript i "number") (fun n =>
      if pyEq n target then M.pure (some i) else find_issue rest target)

/-- Embedding of `AIAssistant._handle_multi_platform_action`. -/
def handle_multi_platform_action (env : Env) (action : JVal) (parameters : JVal)
    (_user_input : String) : M JVal :=
  M.tryCatch
    (if action.isStr "sync_task_to_issue" then
      M.bind (M.call (.asanaGetTaskByGid (dget parameters "task_gid"))
          (env.asanaGetTaskByGid (dget parameters "task_gid"))) (fun task =>
      M.bind (M.subscript task "name") (fun task_name =>
      M.bind (M.subscript task "gid") (fun task_gid =>
      let issue_data : JVal := .obj [
        ("title", task_name),
        ("body", .str ("Synced from Asana task: " ++ pyStr (dgetD task "notes" (.str ""))
          ++ "\n\nTask ID: " ++ pyStr task_gid)),
        ("labels", .arr [.str "asana-sync"])]
      M.bind (M.call (.githubCreateIssue (dget parameters "repo_name") issue_data)
          (env.githubCreateIssue (dget parameters "repo_name") issue_data)) (fun issue =>
      M.bind (M.subscript issue "html_url") (fun html_url =>
      M.bind (M.call (.asanaAddCommentToTask (dget parameters "task_gid")
            ("GitHub issue created: " ++ pyStr html_url))
          (env.asanaAddCommentToTask (dget parameters "task_gid")
            ("GitHub issue created: " ++ pyStr html_url))) (fun _ =>
      M.pure (.obj [("action", .str "task_synced_to_issue"),
        ("asana_task", task), ("github_issue", issue)])))))))
    else if action.isStr "sync_issue_to_task" then
      M.bind (M.call (.githubGetIssues (dget parameters "repo_name") (.str "open"))
          (env.githubGetIssues (dget parameters "repo_name") (.str "open"))) (fun issues =>
      M.bind (find_issue issues (dget parameters "issue_number")) (fun issue_opt =>
      match issue_opt with
      | none => M.pure (.obj [("error", .str "Issue not found")])
      | some issue =>
        if !issue.truthy then M.pure (.obj [("error", .str "Issue not found")]) else
        M.bind (M.subscript issue "title") (fun title =>
        M.bind (M.subscript issue "body") (fun body =>
        M.bind (M.subscript issue "html_url") (fun html_url =>
        let task_data : JVal := .obj [
          ("name", title),
          ("notes", .str ("Synced from GitHub issue: " ++ pyStr body
            ++ "\n\nIssue URL: " ++ pyStr html_url))]
        M.bind (M.call (.asanaCreateTask (dget parameters "project_gid") task_data)
            (env.asanaCreateTask (dget parameters "project_gid") task_data)) (fun task =>
        M.bind (M.call (.githubAddCommentToIssue (dget parameters "repo_name")
              (dget parameters "issue_number") "Asana task created for tracking this issue.")
            (env.githubAddCommentToIssue (dget parameters "repo_name")
              (dget parameters "issue_number") "Asana task created for tracking this issue.")) (fun _ =>
        M.pure (.obj [("action", .str "issue_synced_to_task"),
          ("github_issue", issue), ("asana_task", task)]))))))))
    else
      M.pure (.obj [("error", .str ("Unknown multi-platform action: " ++ pyStr action))]))
    (fun e => M.pure (.obj [("error", .str ("Multi-platform action failed: " ++ e))]))

/-- Message list `_generate_response` sends: system prompt and user turn,
with an assistant context turn inserted at index 1 when `context` is
truthy (`if context:`). -/
def gen_messages (env : Env) (user_input : String) (context : Option JVal) : List Msg :=
  match context with
  | some ctx =>
    if ctx.truthy then
      [⟨"system", system_prompt⟩,
       ⟨"assistant", "Context: " ++ env.jsonDumps ctx⟩,
       ⟨"user", user_input⟩]
    else [⟨"system", system_prompt⟩, ⟨"user", user_input⟩]
  | none => [⟨"system", system_prompt⟩, ⟨"user", user_input⟩]

/-- Embedding of `AIAssistant._generate_response`: initialization precedes the `try`
block; a completion failure becomes a soft error mapping; a reply is
wrapped verbatim under the `response` key. -/
def generate_response (env : Env) (user_input : String) (context : Option JVal) : M JVal :=
  M.bind (ensure_openai_initialized env) (fun _ =>
    M.tryCatch
      (M.bind (M.call (.llmComplete (gen_messages env user_input context))
          (env.llmComplete (gen_messages env user_input context))) (fun reply =>
        M.pure (.obj [("action", .str "conversational_response"), ("response", .str reply)])))
      (fun e => M.pure (.obj [("error", .str ("Failed to generate response: " ++ e))])))

/-- Embedding of `AIAssistant._execute_action`: routes on `intent.get("platform")`. -/
def execute_action (env : Env) (intent : JVal) (user_input : String)
    (context : Option JVal) : M JVal :=
  let action := dget intent "action"
  let platform := dget intent "platform"
  let parameters := dgetD intent "parameters" (.obj [])
  if platform.isStr "asana" then handle_asana_action env action parameters user_input
  else if platform.isStr "github" then handle_github_action env action parameters user_input
  else if platform.isStr "vscode" then handle_vscode_action env action parameters user_input
  else if platform.isStr "multi" then handle_multi_platform_action env action parameters user_input
  else generate_response env user_input context

/-- Embedding of `AIAssistant.process_command`: classify, dispatch, wrap in the
success envelope; any raised exception becomes the failure envelope.
`now` stands for `datetime.now().isoformat()`. -/
def process_command (env : Env) (user_input : String) (context : Option JVal)
    (now : String) : M JVal :=
  M.tryCatch
    (M.bind (analyze_intent env user_input) (fun intent =>
     M.bind (execute_action env intent user_input context) (fun result =>
     M.pure (.obj [("success", .bool true), ("intent", intent),
       ("result", result), ("timestamp", .str now)]))))
    (fun e => M.pure (.obj [("success", .bool false), ("error", .str e),
      ("timestamp", .str now)]))

/-- Embedding of `AIAssistant.get_status_summary`. -/
def get_status_summary (env : Env) (now : String) : M JVal :=
  M.tryCatch
    (M.bind (M.call .asanaGetProjects env.asanaGetProjects) (fun asana_projects =>
     M.bind (M.call .githubGetRepositories env.githubGetRepositories) (fun github_repos =>
     M.bind (M.call .vscodeGetWorkspaceFiles env.vscodeGetWorkspaceFiles) (fun vscode_files =>
     M.bind (M.call .vscodeGetGitStatus env.vscodeGetGitStatus) (fun git_status =>
     M.pure (.obj [
       ("asana", .obj [("projects_count", .num (asana_projects.length : Int)),
         ("projects", .arr (asana_projects.take 5))]),
       ("github", .obj [("repositories_count", .num (github_repos.length : Int)),
         ("repositories", .arr (github_repos.take 5))]),
       ("vscode", .obj [("workspace_files_count", .num (vscode_files.length : Int)),
         ("git_status", git_status)]),
       ("timestamp", .str now)]))))))
    (fun e => M.pure (.obj [("error", .str ("Failed to get status summary: " ++ e))]))

/-- Python dict-literal merge `\x7b"k": v, **extra\x7d`: keys of `extra`
override the base binding. -/
def dictMerge (base extra : List (String × JVal)) : List (String × JVal) :=
  base.filter (fun p => (extra.lookup p.1).isNone) ++ extra

/-- Unpacking `**additional_params`: raises when the request carried no
mapping (`additional_params` defaulted to `None`) or a non-mapping. -/
def unpackParams : Option JVal → M (List (String × JVal))
  | some (.obj fs) => M.pure fs
  | some v => M.throw ("argument of type \x27" ++ pyStr v ++ "\x27 is not a mapping")
  | none => M.throw "\x27NoneType\x27 object is not a mapping"

/-- Python `int(s)` on the sync request's `source_id`. -/
def pyInt (s : String) : M Int :=
  match (pyStrip s).toInt? with
  | some n => M.pure n
  | none => M.throw ("invalid literal for int() with base 10: \x27" ++ s ++ "\x27")

/-- Body of the `POST /sync` route (api/main.py `sync_platforms`):
selects the sync flow from the `(source_platform, target_platform)`
pair, or raises the unsupported-direction error; the surrounding route
handler converts any raised exception into an HTTP error response. -/
def sync_platforms (env : Env) (source_platform target_platform source_id : String)
    (additional_params : Option JVal) : M JVal :=
  if source_platform == "asana" && target_platform == "github" then
    M.bind (unpackParams additional_params) (fun extra =>
      handle_multi_platform_action env (.str "sync_task_to_issue")
        (.obj (dictMerge [("task_gid", .str source_id)] extra))
        ("Sync Asana task " ++ source_id ++ " to GitHub"))
  else if source_platform == "github" && target_platform == "asana" then
    M.bind (pyInt source_id) (fun n =>
      M.bind (unpackParams additional_params) (fun extra =>
        handle_multi_platform_action env (.str "sync_issue_to_task")
          (.obj (dictMerge [("issue_number", .num n)] extra))
          ("Sync GitHub issue " ++ source_id ++ " to Asana")))
  else
    M.throw ("Sync from " ++ source_platform ++ " to " ++ target_platform ++ " not supported")

/-- Environment-variable name derived from a secret name:
`secret_name.upper().replace("-", "_")`. -/
def envVarName (name : String) : String :=
  pyReplace (pyUpper name) "-" "_"

/-- Mutable state of `AzureKeyVaultClient`: its `_secrets_cache` dict,
modelled extensionally as a map from secret name to the stored value. -/
structure KVState : Type where
  cache : String → Option String

/-- The empty cache the client starts with. -/
def emptyCache : String → Option String := fun _ => none

/-- Dict assignment `cache[name] = value`. -/
def cacheSet (name value : String) (c : String → Option String) :
    String → Option String :=
  fun k => if k = name then some value else c k

/-- Dict removal `cache.pop(name, None)`. -/
def cacheRemove (name : String) (c : String → Option String) :
    String → Option String :=
  fun k => if k = name then none else c k

/-- Embedding of `AzureKeyVaultClient.get_secret(secret_name, use_cache)`.
`clientInit` is whether the `SecretClient` was created (`self.client`);
`osEnv` is `os.getenv`; `vault` is the outcome the vault would produce
for this round-trip. Returns the value, the new state, and whether a
vault round-trip was actually performed. The function catches every
vault failure and never raises. -/
def kv_get_secret (clientInit : Bool) (osEnv : String → Option String)
    (vault : VaultResp) (secret_name : String) (use_cache : Bool)
    (st : KVState) : Option String × KVState × Bool :=
  if !clientInit then
    (osEnv (envVarName secret_name), st, false)
  else if use_cache && (st.cache secret_name).isSome then
    (st.cache secret_name, st, false)
  else
    match vault with
    | .ok v => (some v, ⟨if use_cache then cacheSet secret_name v st.cache else st.cache⟩, true)
    | .err _ => (osEnv (envVarName secret_name), st, true)

/-- Embedding of `AzureKeyVaultClient.set_secret`: vault-only; `false` when the client
is absent or the write raises, on success also updates the cache. -/
def kv_set_secret (clientInit : Bool) (vault : Except String Unit)
    (secret_name secret_value : String) (st : KVState) : Bool × KVState :=
  if !clientInit then (false, st)
  else
    match vault with
    | .ok _ => (true, ⟨cacheSet secret_name secret_value st.cache⟩)
    | .error _ => (false, st)

/-- Embedding of `AzureKeyVaultClient.delete_secret`: on success removes the cache
entry. -/
def kv_delete_secret (clientInit : Bool) (vault : Except String Unit)
    (secret_name : String) (st : KVState) : Bool × KVState :=
  if !clientInit then (false, st)
  else
    match vault with
    | .ok _ => (true, ⟨cacheRemove secret_name st.cache⟩)
    | .error _ => (false, st)

/-- Embedding of `AzureKeyVaultClient.clear_cache`. -/
def kv_clear_cache (_st : KVState) : KVState := ⟨emptyCache⟩

/-- One operation on the Key Vault client, together with the behavior of
the external world (vault outcome, process environment) during it. -/
inductive KVOp : Type where
  | get (name : String) (use_cache : Bool) (vault : VaultResp)
      (osEnv : String → Option String)
  | set (name value : String) (vault : Except String Unit)
  | delete (name : String) (vault : Except String Unit)
  | clearCache

/-- State transition of one `AzureKeyVaultClient` operation. -/
def kv_step (clientInit : Bool) (st : KVState) : KVOp → KVState
  | .get name use_cache vault osEnv =>
    (kv_get_secret clientInit osEnv vault name use_cache st).2.1
  | .set name value vault => (kv_set_secret clientInit vault name value st).2
  | .delete name vault => (kv_delete_secret clientInit vault name st).2
  | .clearCache => kv_clear_cache st

/-- Run a sequence of operations from a state; every reachable state of
the client is `kv_run clientInit ⟨emptyCache⟩ ops` for some `ops`. -/
def kv_run (clientInit : Bool) (st : KVState) : List KVOp → KVState
  | [] => st
  | op :: ops => kv_run clientInit (kv_step clientInit st op) ops

/-- An operation that establishes cache entry `(name, v)`: a `get` whose
vault round-trip succeeded with `v` under `use_cache`, or a successful
`set` of `v`. -/
def establishes (name v : String) : KVOp → Prop
  | .get n use_cache vault _ => n = name ∧ use_cache = true ∧ vault = .ok v
  | .set n w vaultOutcome => n = name ∧ w = v ∧ vaultOutcome = .ok ()
  | _ => False

/-- Configuration surface `SecureSettings` consults: the vault-enable
flag, the vault URL, the secret-name prefix, the process environment and
the constructed `Settings` object (`getattr(self.base_settings, a, None)`
as a total function from attribute name to value). -/
structure SettingsEnv : Type where
  use_key_vault : Bool
  azure_key_vault_url : Option String
  key_vault_secret_pfx : String
  osEnv : String → Option String
  base_settings : String → JVal

/-- Field values of a `Settings()` object constructed with no matching
environment variables and no `.env` file: the coded defaults
(config.py, class Settings). -/
def default_base_settings : String → JVal
  | "azure_tenant_id" => .null
  | "azure_client_id" => .null
  | "azure_client_secret" => .null
  | "azure_key_vault_url" => .null
  | "asana_access_token" => .null
  | "github_token" => .null
  | "openai_api_key" => .null
  | "database_url" => .str "sqlite:///./assistant.db"
  | "redis_url" => .str "redis://localhost:6379"
  | "api_host" => .str "0.0.0.0"
  | "api_port" => .num 8000
  | "debug" => .bool false
  | "openai_model" => .str "gpt-4"
  | "max_tokens" => .num 2000
  | "temperature" => .flt (7 / 10)
  | "asana_workspace_gid" => .null
  | "github_organization" => .null
  | "default_project_path" => .str "./projects"
  | "use_key_vault" => .bool true
  | "key_vault_secret_prefix" => .str ""
  | _ => .null

/-- The environment-then-base-settings fallback chain at the end of
`SecureSettings.get_secret`:
`os.getenv(env_var) or getattr(self.base_settings, env_var.lower(), None)`
with `env_var = fallback_env_var or secret_name.upper().replace("-","_")`. -/
def settings_fallback (senv : SettingsEnv) (secret_name : String)
    (fallback_env_var : Option String) : JVal :=
  let env_var := fallback_env_var.getD (envVarName secret_name)
  match senv.osEnv env_var with
  | some s => if s ≠ "" then .str s else senv.base_settings (pyLower env_var)
  | none => senv.base_settings (pyLower env_var)

/-- Embedding of `SecureSettings.get_secret(secret_name, fallback_env_var)`.
`importOk` is whether the `AzureKeyVaultClient` import succeeded (so
`initialize` stored a client wrapper), `clientInit` whether that
wrapper's `SecretClient` came up (`is_available`). The function never
raises; it returns the resolved value and the updated vault cache. -/
def secure_get_secret (senv : SettingsEnv) (importOk clientInit : Bool)
    (vault : VaultResp) (st : KVState) (secret_name : String)
    (fallback_env_var : Option String) : JVal × KVState :=
  let kvClient := senv.use_key_vault && senv.azure_key_vault_url.isSome && importOk
  let fromVault : Option String × KVState :=
    if kvClient && clientInit then
      let vault_secret_name := senv.key_vault_secret_pfx ++ secret_name
      let r := kv_get_secret clientInit senv.osEnv vault vault_secret_name true st
      (r.1, r.2.1)
    else (none, st)
  match fromVault.1 with
  | some v =>
    if v ≠ "" then (.str v, fromVault.2)
    else (settings_fallback senv secret_name fallback_env_var, fromVault.2)
  | none => (settings_fallback senv secret_name fallback_env_var, fromVault.2)

/-- Embedding of `SecureSettings.set_secret`: vault-only, `false` when no available
vault client exists. -/
def secure_set_secret (senv : SettingsEnv) (importOk clientInit : Bool)
    (vault : Except String Unit) (st : KVState)
    (secret_name secret_value : String) : Bool × KVState :=
  let kvClient := senv.use_key_vault && senv.azure_key_vault_url.isSome && importOk
  if kvClient && clientInit then
    kv_set_secret clientInit vault (senv.key_vault_secret_pfx ++ secret_name)
      secret_value st
  else (false, st)

/-- A concrete collaborator environment with benign stub oracles, used
to instantiate the universally quantified theorems below on closed
inputs. -/
def stubEnv : Env :=
  { openaiKey := some "sk-test"
    intentText := .ok "reply"
    jsonLoads := fun _ => .ok (.obj [])
    jsonDumps := fun _ => "\x7b\x7d"
    llmComplete := fun _ => .ok "Hello!"
    asanaCreateTask := fun _ _ => .ok (.obj [("gid", .str "T2"), ("name", .str "t"), ("created", .bool true)])
    asanaGetTasks := fun _ _ => .ok (.arr [])
    asanaUpdateTask := fun _ _ => .ok .null
    asanaSearchTasks := fun _ _ => .ok (.arr [])
    asanaGetTaskByGid := fun _ => .ok (.obj [("gid", .str "T1"), ("name", .str "Fix bug"), ("notes", .str "n")])
    asanaAddCommentToTask := fun _ _ => .ok (.obj [])
    asanaGetProjects := .ok [.obj [("gid", .str "P1"), ("name", .str "proj")]]
    githubCreateIssue := fun _ _ => .ok (.obj [("number", .num 7), ("html_url", .str "https://example.test/issues/7")])
    githubGetIssues := fun _ _ => .ok []
    githubCreatePullRequest := fun _ _ => .ok (.obj [])
    githubGetRepositories := .ok []
    githubAddCommentToIssue := fun _ _ _ => .ok (.obj [])
    vscodeOpenProject := fun _ => .ok true
    vscodeSetupProjectStructure := fun _ => .ok true
    vscodeCreateTask := fun _ => .ok true
    vscodeInstallExtension := fun _ => .ok true
    vscodeGetWorkspaceFiles := .ok ["a.py"]
    vscodeGetGitStatus := .ok (.obj [("branch", .str "main")]) }

/-- C2: for every synchronization request whose platform pair is neither
(asana, github) nor (github, asana), the `/sync` dispatch raises the
unsupported-direction error with an unchanged trace, i.e. before any
adapter call. -/
theorem sync_unsupported_pair_raises_before_any_adapter_call
    (env : Env) (sp tp sid : String) (ap : Option JVal) (tr : List Event)
    (h1 : ¬(sp = "asana" ∧ tp = "github"))
    (h2 : ¬(sp = "github" ∧ tp = "asana")) :
    sync_platforms env sp tp sid ap tr =
      (.error ("Sync from " ++ sp ++ " to " ++ tp ++ " not supported"), tr) := by
  have hb1 : ¬((sp == "asana" && tp == "github") = true) := by
    simp only [Bool.and_eq_true, beq_iff_eq]
    exact h1
  have hb2 : ¬((sp == "github" && tp == "asana") = true) := by
    simp only [Bool.and_eq_true, beq_iff_eq]
    exact h2
  unfold sync_platforms
  rw [if_neg hb1, if_neg hb2]
  rfl

/-- C2 witness: a sync request from the editor platform to github is
rejected with no adapter call made. -/
theorem sync_unsupported_pair_witness :
    sync_platforms stubEnv "vscode" "github" "42" none [] =
      (.error "Sync from vscode to github not supported", []) :=
  sync_unsupported_pair_raises_before_any_adapter_call stubEnv "vscode" "github" "42" none []
    (by simp) (by simp)

/-- C10: a successful status summary reports full adapter list lengths
as the counts while listing only the first five projects and the first
five repositories. -/
theorem get_status_summary_truncates_lists_keeps_full_counts
    (env : Env) (now : String) (tr : List Event)
    (projects repos : List JVal) (files : List String) (git_status : JVal)
    (hp : env.asanaGetProjects = .ok projects)
    (hr : env.githubGetRepositories = .ok repos)
    (hf : env.vscodeGetWorkspaceFiles = .ok files)
    (hg : env.vscodeGetGitStatus = .ok git_status) :
    get_status_summary env now tr =
      (.ok (.obj [
        ("asana", .obj [("projects_count", .num (projects.length : Int)),
          ("projects", .arr (projects.take 5))]),
        ("github", .obj [("repositories_count", .num (repos.length : Int)),
          ("repositories", .arr (repos.take 5))]),
        ("vscode", .obj [("workspace_files_count", .num (files.length : Int)),
          ("git_status", git_status)]),
        ("timestamp", .str now)]),
       tr ++ [.asanaGetProjects, .githubGetRepositories,
         .vscodeGetWorkspaceFiles, .vscodeGetGitStatus]) ∧
    (projects.take 5).length ≤ 5 ∧ (repos.take 5).length ≤ 5 := by
  refine ⟨?_, ?_, ?_⟩
  · simp [get_status_summary, M.tryCatch, M.bind, M.call, M.pure, hp, hr, hf, hg]
  · simp only [List.length_take]
    omega
  · simp only [List.length_take]
    omega

/-- C10 witness: the stub environment's one project and no repositories
are counted in full and shown truncated to five. -/
theorem get_status_summary_witness :
    get_status_summary stubEnv "T0" [] =
      (.ok (.obj [
        ("asana", .obj [("projects_count", .num 1),
          ("projects", .arr [.obj [("gid", .str "P1"), ("name", .str "proj")]])]),
        ("github", .obj [("repositories_count", .num 0), ("repositories", .arr [])]),
        ("vscode", .obj [("workspace_files_count", .num 1),
          ("git_status", .obj [("branch", .str "main")])]),
        ("timestamp", .str "T0")]),
       [.asanaGetProjects, .githubGetRepositories,
        .vscodeGetWorkspaceFiles, .vscodeGetGitStatus]) :=
  (get_status_summary_truncates_lists_keeps_full_counts stubEnv "T0" []
    [.obj [("gid", .str "P1"), ("name", .str "proj")]] [] ["a.py"]
    (.obj [("branch", .str "main")]) rfl rfl rfl rfl).1

/-- C9: dispatching an intent whose platform is none of the recognized
tags invokes the conversational fallback exactly once — the appended
trace is the single language-model completion carrying the raw command
text and context — and the model's reply is returned verbatim under the
`response` key; no platform adapter is called. -/
theorem dispatch_unknown_platform_uses_conversational_fallback
    (env : Env) (intent : JVal) (user_input : String) (context : Option JVal)
    (tr : List Event) (key : String)
    (hkey : env.openaiKey = some key)
    (hp1 : (dget intent "platform").isStr "asana" = false)
    (hp2 : (dget intent "platform").isStr "github" = false)
    (hp3 : (dget intent "platform").isStr "vscode" = false)
    (hp4 : (dget intent "platform").isStr "multi" = false) :
    (execute_action env intent user_input context tr).2 =
      tr ++ [.llmComplete (gen_messages env user_input context)] ∧
    (∀ r, env.llmComplete (gen_messages env user_input context) = .ok r →
      execute_action env intent user_input context tr =
        (.ok (.obj [("action", .str "conversational_response"), ("response", .str r)]),
         tr ++ [.llmComplete (gen_messages env user_input context)])) := by
  constructor
  · cases hC : env.llmComplete (gen_messages env user_input context) with
    | ok r =>
      simp [execute_action, hp1, hp2, hp3, hp4, generate_response,
        ensure_openai_initialized, hkey, M.bind, M.pure, M.tryCatch, M.call, hC]
    | error e =>
      simp [execute_action, hp1, hp2, hp3, hp4, generate_response,
        ensure_openai_initialized, hkey, M.bind, M.pure, M.tryCatch, M.call, hC]
  · intro r hC
    simp [execute_action, hp1, hp2, hp3, hp4, generate_response,
      ensure_openai_initialized, hkey, M.bind, M.pure, M.tryCatch, M.call, hC]

/-- C9 witness: an intent with platform `unknown` routes to the
conversational fallback, which returns the stub reply verbatim after
exactly one completion call. -/
theorem dispatch_unknown_platform_witness :
    (execute_action stubEnv (.obj [("platform", .str "unknown")]) "hi" none []).2 =
      [.llmComplete (gen_messages stubEnv "hi" none)] ∧
    execute_action stubEnv (.obj [("platform", .str "unknown")]) "hi" none [] =
      (.ok (.obj [("action", .str "conversational_response"), ("response", .str "Hello!")]),
       [.llmComplete (gen_messages stubEnv "hi" none)]) := by
  have h := dispatch_unknown_platform_uses_conversational_fallback stubEnv
    (.obj [("platform", .str "unknown")]) "hi" none [] "sk-test" rfl
    (by decide) (by decide) (by decide) (by decide)
  exact ⟨h.1, h.2 "Hello!" rfl⟩

/-- The linear scan over well-formed issues finds nothing when no issue
number matches the target, and performs no collaborator call. -/
theorem find_issue_none_of_no_match (target : JVal) :
    ∀ (issues : List JVal) (tr : List Event),
    (∀ i ∈ issues, ∃ n, getField i "number" = some n ∧ pyEq n target = false) →
    find_issue issues target tr = (.ok none, tr) := by
  intro issues
  induction issues with
  | nil => intro tr _; rfl
  | cons i rest ih =>
    intro tr h
    obtain ⟨n, hn, hne⟩ := h i (by simp)
    have hrest := fun j hj => h j (List.mem_cons_of_mem i hj)
    simp [find_issue, M.bind, M.subscript, M.pure, hn, hne, ih tr hrest]

/-- C6: when the open-issue list for the repository contains no issue
with the requested number, the issue-to-task sync returns the soft error
mapping `error: Issue not found` and its appended trace holds only the
issue listing — in particular no task-creation call. -/
theorem sync_issue_to_task_missing_issue_soft_error
    (env : Env) (parameters : JVal) (u : String) (tr : List Event)
    (issues : List JVal)
    (hissues : env.githubGetIssues (dget parameters "repo_name") (.str "open") = .ok issues)
    (hnomatch : ∀ i ∈ issues, ∃ n, getField i "number" = some n ∧
      pyEq n (dget parameters "issue_number") = false) :
    handle_multi_platform_action env (.str "sync_issue_to_task") parameters u tr =
      (.ok (.obj [("error", .str "Issue not found")]),
       tr ++ [.githubGetIssues (dget parameters "repo_name") (.str "open")]) := by
  have hf := find_issue_none_of_no_match (dget parameters "issue_number") issues
    (tr ++ [.githubGetIssues (dget parameters "repo_name") (.str "open")]) hnomatch
  simp +decide [handle_multi_platform_action, M.tryCatch, M.bind, M.call, M.pure,
    hissues, hf]

/-- Stub environment whose code host lists one open issue numbered 1. -/
def stubEnvIssues : Env :=
  { stubEnv with githubGetIssues :=
      fun _ _ => Except.ok [JVal.obj [("number", .num 1), ("title", .str "t"), ("body", .str "b"), ("html_url", .str "u")]] }

/-- C6 witness: requesting issue 99 of a repository whose only open
issue is numbered 1 yields the soft error and no task creation. -/
theorem sync_issue_to_task_missing_issue_witness :
    handle_multi_platform_action stubEnvIssues (.str "sync_issue_to_task")
      (.obj [("repo_name", .str "repoA"), ("issue_number", .num 99), ("project_gid", .str "P1")])
      "sync" [] =
      (.ok (.obj [("error", .str "Issue not found")]),
       [.githubGetIssues (.str "repoA") (.str "open")]) := by
  have h := sync_issue_to_task_missing_issue_soft_error stubEnvIssues
    (.obj [("repo_name", .str "repoA"), ("issue_number", .num 99), ("project_gid", .str "P1")])
    "sync" []
    [.obj [("number", .num 1), ("title", .str "t"), ("body", .str "b"), ("html_url", .str "u")]]
    rfl ?_
  · exact h
  · intro i hi
    simp only [List.mem_singleton] at hi
    subst hi
    exact ⟨.num 1, rfl, by decide⟩

/-- C5: when the task adapter returns the source task, the task-to-issue
sync makes exactly three calls in order — fetch the task, create one
issue whose body embeds the task's notes and id and whose labels carry
the traceability label, then post one comment on the source task quoting
the created issue's URL — and returns the success mapping. -/
theorem sync_task_to_issue_creates_then_comments
    (env : Env) (parameters : JVal) (u : String) (tr : List Event)
    (task issue story nm gid url : JVal)
    (htask : env.asanaGetTaskByGid (dget parameters "task_gid") = .ok task)
    (hname : getField task "name" = some nm)
    (hgid : getField task "gid" = some gid)
    (hissue : env.githubCreateIssue (dget parameters "repo_name")
      (.obj [("title", nm),
        ("body", .str ("Synced from Asana task: " ++ pyStr (dgetD task "notes" (.str ""))
          ++ "\n\nTask ID: " ++ pyStr gid)),
        ("labels", .arr [.str "asana-sync"])]) = .ok issue)
    (hurl : getField issue "html_url" = some url)
    (hstory : env.asanaAddCommentToTask (dget parameters "task_gid")
      ("GitHub issue created: " ++ pyStr url) = .ok story) :
    handle_multi_platform_action env (.str "sync_task_to_issue") parameters u tr =
      (.ok (.obj [("action", .str "task_synced_to_issue"),
        ("asana_task", task), ("github_issue", issue)]),
       tr ++ [.asanaGetTaskByGid (dget parameters "task_gid"),
         .githubCreateIssue (dget parameters "repo_name")
           (.obj [("title", nm),
             ("body", .str ("Synced from Asana task: " ++ pyStr (dgetD task "notes" (.str ""))
               ++ "\n\nTask ID: " ++ pyStr gid)),
             ("labels", .arr [.str "asana-sync"])]),
         .asanaAddCommentToTask (dget parameters "task_gid")
           ("GitHub issue created: " ++ pyStr url)]) := by
  simp +decide [handle_multi_platform_action, M.tryCatch, M.bind, M.call, M.pure,
    M.subscript, htask, hname, hgid, hissue, hurl, hstory]

/-- C5 witness: syncing task T1 with the stub adapters creates one issue
whose body quotes the notes and the literal id T1, then posts one
comment quoting the created issue's URL. -/
theorem sync_task_to_issue_witness :
    handle_multi_platform_action stubEnv (.str "sync_task_to_issue")
      (.obj [("task_gid", .str "T1"), ("repo_name", .str "repoA")]) "sync" [] =
      (.ok (.obj [("action", .str "task_synced_to_issue"),
        ("asana_task", .obj [("gid", .str "T1"), ("name", .str "Fix bug"), ("notes", .str "n")]),
        ("github_issue", .obj [("number", .num 7), ("html_url", .str "https://example.test/issues/7")])]),
       [.asanaGetTaskByGid (.str "T1"),
        .githubCreateIssue (.str "repoA")
          (.obj [("title", .str "Fix bug"),
            ("body", .str "Synced from Asana task: n\n\nTask ID: T1"),
            ("labels", .arr [.str "asana-sync"])]),
        .asanaAddCommentToTask (.str "T1")
          ("GitHub issue created: https://example.test/issues/7")]) := by
  have h := sync_task_to_issue_creates_then_comments stubEnv
    (.obj [("task_gid", .str "T1"), ("repo_name", .str "repoA")]) "sync" []
    (.obj [("gid", .str "T1"), ("name", .str "Fix bug"), ("notes", .str "n")])
    (.obj [("number", .num 7), ("html_url", .str "https://example.test/issues/7")])
    (.obj []) (.str "Fix bug") (.str "T1") (.str "https://example.test/issues/7")
    rfl rfl rfl rfl rfl rfl
  exact h

/-- Actions each known platform's handler recognizes, paired with the
platform label its unknown-action soft error uses. -/
def known_platform_actions : List (String × String × List String) :=
  [("asana", "Asana", ["create_task", "create_new_task", "get_tasks", "update_task", "search_tasks"]),
   ("github", "GitHub", ["create_issue", "get_issues", "create_pr", "get_repositories"]),
   ("vscode", "VSCode", ["open_project", "setup_project", "create_task", "install_extension"]),
   ("multi", "multi-platform", ["sync_task_to_issue", "sync_issue_to_task"])]

/-- The handler pattern of a platform handler — a body wrapped in a
catch that returns a mapping — never propagates a raised exception. -/
theorem tryCatch_pure_ok (x : M JVal) (h : String → JVal) (tr : List Event) :
    ∃ out tr1, M.tryCatch x (fun e => M.pure (h e)) tr = (.ok out, tr1) := by
  rcases hx : x tr with ⟨r, tr1⟩
  cases r with
  | ok a => exact ⟨a, tr1, by simp [M.tryCatch, hx]⟩
  | error e => exact ⟨h e, tr1, by simp [M.tryCatch, hx, M.pure]⟩

/-- C1: the command entry point never lets an exception escape — every
run returns an envelope that is either success with a timestamp or
failure with an error string and a timestamp; an unrecognized action
for a known platform is returned as the in-band soft error mapping
`Unknown <platform> action: <action>` nested under a success-true
envelope; and every platform handler converts its own failures,
adapter exceptions included, into an in-band mapping rather than a
raised exception. -/
theorem process_command_never_raises_and_unknown_action_is_soft
    (env : Env) (user_input : String) (context : Option JVal) (now : String)
    (tr : List Event) :
    (∃ out tr2, process_command env user_input context now tr = (.ok out, tr2) ∧
      ((dget out "success" = .bool true ∧ dget out "timestamp" = .str now) ∨
       ∃ e, dget out "success" = .bool false ∧ dget out "error" = .str e ∧
         dget out "timestamp" = .str now)) ∧
    (∀ (key txt : String) (j : JVal) (p label a : String) (acts : List String),
      env.openaiKey = some key → env.intentText = .ok txt → env.jsonLoads txt = .ok j →
      (p, label, acts) ∈ known_platform_actions →
      dget j "platform" = .str p → dget j "action" = .str a → a ∉ acts →
      process_command env user_input context now tr =
        (.ok (.obj [("success", .bool true), ("intent", j),
          ("result", .obj [("error", .str ("Unknown " ++ label ++ " action: " ++ a))]),
          ("timestamp", .str now)]),
         tr ++ [.llmClassify user_input])) ∧
    (∀ (action parameters : JVal) (u : String) (tr0 : List Event),
      (∃ out tr1, handle_asana_action env action parameters u tr0 = (.ok out, tr1)) ∧
      (∃ out tr1, handle_github_action env action parameters u tr0 = (.ok out, tr1)) ∧
      (∃ out tr1, handle_vscode_action env action parameters u tr0 = (.ok out, tr1)) ∧
      (∃ out tr1, handle_multi_platform_action env action parameters u tr0 = (.ok out, tr1))) := by
  refine ⟨?_, ?_, ?_⟩
  · rcases hA : analyze_intent env user_input tr with ⟨ra, tra⟩
    cases ra with
    | error e =>
      refine ⟨.obj [("success", .bool false), ("error", .str e), ("timestamp", .str now)],
        tra, ?_, Or.inr ⟨e, rfl, rfl, rfl⟩⟩
      simp [process_command, M.tryCatch, M.bind, M.pure, hA]
    | ok i =>
      rcases hE : execute_action env i user_input context tra with ⟨re, tre⟩
      cases re with
      | error e =>
        refine ⟨.obj [("success", .bool false), ("error", .str e), ("timestamp", .str now)],
          tre, ?_, Or.inr ⟨e, rfl, rfl, rfl⟩⟩
        simp [process_command, M.tryCatch, M.bind, M.pure, hA, hE]
      | ok r =>
        refine ⟨.obj [("success", .bool true), ("intent", i), ("result", r),
          ("timestamp", .str now)], tre, ?_, Or.inl ⟨rfl, rfl⟩⟩
        simp [process_command, M.tryCatch, M.bind, M.pure, hA, hE]
  · intro key txt j p label a acts hkey htxt hload hmem hplat hact hnot
    have hA : analyze_intent env user_input tr = (.ok j, tr ++ [.llmClassify user_input]) := by
      simp [analyze_intent, ensure_openai_initialized, hkey, htxt, hload,
        M.bind, M.pure, M.tryCatch, M.call, M.throw]
    simp only [known_platform_actions, List.mem_cons, List.not_mem_nil, or_false,
      Prod.mk.injEq] at hmem
    rcases hmem with ⟨rfl, rfl, rfl⟩ | ⟨rfl, rfl, rfl⟩ | ⟨rfl, rfl, rfl⟩ | ⟨rfl, rfl, rfl⟩ <;>
      simp only [List.mem_cons, List.not_mem_nil, or_false, not_or] at hnot <;>
      simp +decide [process_command, M.tryCatch, M.bind, M.pure, hA, execute_action,
        hplat, hact, handle_asana_action, handle_github_action, handle_vscode_action,
        handle_multi_platform_action, JVal.isStr, JVal.pyStr, hnot.1, hnot.2]
  · intro action parameters u tr0
    refine ⟨?_, ?_, ?_, ?_⟩
    · unfold handle_asana_action
      exact tryCatch_pure_ok _ _ tr0
    · unfold handle_github_action
      exact tryCatch_pure_ok _ _ tr0
    · unfold handle_vscode_action
      exact tryCatch_pure_ok _ _ tr0
    · unfold handle_multi_platform_action
      exact tryCatch_pure_ok _ _ tr0

/-- Stub environment whose classifier reply parses to an asana intent
with an action no handler branch recognizes. -/
def stubEnvUnknownAction : Env :=
  { stubEnv with jsonLoads :=
      fun _ => Except.ok (JVal.obj [("platform", .str "asana"), ("action", .str "frobnicate")]) }

/-- C1 witness: the unrecognized asana action `frobnicate` yields the
soft error mapping inside a success-true envelope. -/
theorem process_command_unknown_action_witness :
    process_command stubEnvUnknownAction "cmd" none "T0" [] =
      (.ok (.obj [("success", .bool true),
        ("intent", .obj [("platform", .str "asana"), ("action", .str "frobnicate")]),
        ("result", .obj [("error", .str "Unknown Asana action: frobnicate")]),
        ("timestamp", .str "T0")]),
       [.llmClassify "cmd"]) :=
  (process_command_never_raises_and_unknown_action_is_soft stubEnvUnknownAction
      "cmd" none "T0" []).2.1 "sk-test" "reply"
    (.obj [("platform", .str "asana"), ("action", .str "frobnicate")])
    "asana" "Asana" "frobnicate"
    ["create_task", "create_new_task", "get_tasks", "update_task", "search_tasks"]
    rfl rfl rfl (by simp [known_platform_actions]) rfl rfl (by decide)

/-- C7: a classifier reply that fails to parse raises the wrapped
classification error, which surfaces to the caller as a success-false
envelope with no conversational fallback call; a reply that parses is
returned as the intent verbatim, fields untouched. -/
theorem classify_parse_failure_surfaces_and_wellformed_exact
    (env : Env) (user_input : String) (context : Option JVal) (now : String)
    (tr : List Event) (key txt : String)
    (hkey : env.openaiKey = some key)
    (htxt : env.intentText = .ok txt) :
    (∀ msg, env.jsonLoads txt = .error msg →
      process_command env user_input context now tr =
        (.ok (.obj [("success", .bool false),
          ("error", .str ("Failed to analyze intent: " ++ msg)),
          ("timestamp", .str now)]),
         tr ++ [.llmClassify user_input])) ∧
    (∀ j, env.jsonLoads txt = .ok j →
      analyze_intent env user_input tr = (.ok j, tr ++ [.llmClassify user_input])) := by
  constructor
  · intro msg hmsg
    simp [process_command, analyze_intent, ensure_openai_initialized, hkey, htxt, hmsg,
      M.bind, M.pure, M.tryCatch, M.call, M.throw]
  · intro j hj
    simp [analyze_intent, ensure_openai_initialized, hkey, htxt, hj,
      M.bind, M.pure, M.tryCatch, M.call, M.throw]

/-- Stub environment whose classifier reply is not parseable. -/
def stubEnvBadReply : Env :=
  { stubEnv with jsonLoads :=
      fun _ => Except.error "Expecting value: line 1 column 1 (char 0)" }

/-- C7 witness: an unparseable reply surfaces as a failure envelope with
the wrapped decode message; a parseable reply comes back verbatim. -/
theorem classify_parse_failure_witness :
    process_command stubEnvBadReply "cmd" none "T0" [] =
      (.ok (.obj [("success", .bool false),
        ("error", .str "Failed to analyze intent: Expecting value: line 1 column 1 (char 0)"),
        ("timestamp", .str "T0")]),
       [.llmClassify "cmd"]) ∧
    analyze_intent stubEnv "cmd" [] = (.ok (.obj []), [.llmClassify "cmd"]) :=
  ⟨(classify_parse_failure_surfaces_and_wellformed_exact stubEnvBadReply
      "cmd" none "T0" [] "sk-test" "reply" rfl rfl).1
      "Expecting value: line 1 column 1 (char 0)" rfl,
   (classify_parse_failure_surfaces_and_wellformed_exact stubEnv
      "cmd" none "T0" [] "sk-test" "reply" rfl rfl).2 (.obj []) rfl⟩

/-- C8: `set_secret` is fail-open — it returns false without raising
when the vault client is absent or the vault write raises — and after a
successful set, a get of the same name is served from the cache with no
vault round-trip, whatever the vault would answer. -/
theorem set_secret_fail_open_and_cached_get
    (st : KVState) (name value wmsg : String) (vaultW : Except String Unit)
    (osEnv : String → Option String) (vresp : VaultResp) :
    kv_set_secret false vaultW name value st = (false, st) ∧
    kv_set_secret true (.error wmsg) name value st = (false, st) ∧
    (∀ st2, kv_set_secret true (.ok ()) name value st = (true, st2) →
      kv_get_secret true osEnv vresp name true st2 = (some value, st2, false)) := by
  refine ⟨rfl, rfl, ?_⟩
  intro st2 h
  obtain rfl : st2 = ⟨cacheSet name value st.cache⟩ := by
    simpa [kv_set_secret] using h.symm
  simp [kv_get_secret, cacheSet]

/-- C8 witness: setting github-token fails open without a client and on
a vault error; after a successful set, the get is answered from cache
with the round-trip flag false even though the vault is down. -/
theorem set_secret_fail_open_witness :
    kv_set_secret false (.ok ()) "github-token" "tok" ⟨emptyCache⟩ = (false, ⟨emptyCache⟩) ∧
    kv_set_secret true (.error "boom") "github-token" "tok" ⟨emptyCache⟩ = (false, ⟨emptyCache⟩) ∧
    kv_get_secret true emptyCache (.err "vault down") "github-token" true
      ⟨cacheSet "github-token" "tok" emptyCache⟩ =
      (some "tok", ⟨cacheSet "github-token" "tok" emptyCache⟩, false) := by
  have h := set_secret_fail_open_and_cached_get ⟨emptyCache⟩ "github-token" "tok" "boom"
    (.ok ()) emptyCache (.err "vault down")
  exact ⟨h.1, h.2.1, h.2.2 ⟨cacheSet "github-token" "tok" emptyCache⟩ rfl⟩

/-- Whether an operation is a `get` call. -/
def isGetOp : KVOp → Bool
  | .get _ _ _ _ => true
  | _ => false

/-- C4 counterexample: a successful `set_secret` populates the cache in
a run containing no `get` call at all, so a cache entry can exist
without any successful vault read of that name. -/
theorem set_creates_cache_entry_without_any_vault_read :
    (kv_run true ⟨emptyCache⟩ [KVOp.set "github-token" "tok" (.ok ())]).cache "github-token"
      = some "tok" ∧
    ([KVOp.set "github-token" "tok" (Except.ok ())].all (fun op => !isGetOp op)) = true :=
  ⟨rfl, rfl⟩

/-- C4 (amended): in every reachable client state, a cache entry exists
only after a successful vault read or a successful vault write of that
name — environment-fallback values are never written to the cache — and
a get of an uncached name after the vault recovers performs a fresh
vault round-trip and returns the vault's current value. -/
theorem cache_entries_only_from_vault_reads_or_writes
    (clientInit : Bool) :
    (∀ (ops : List KVOp) (st : KVState) (name v : String),
      (kv_run clientInit st ops).cache name = some v →
      st.cache name = some v ∨ (clientInit = true ∧ ∃ op ∈ ops, establishes name v op)) ∧
    (∀ (st : KVState) (name v : String) (osEnv : String → Option String),
      st.cache name = none →
      kv_get_secret true osEnv (.ok v) name true st =
        (some v, ⟨cacheSet name v st.cache⟩, true)) := by
  constructor
  · intro ops
    induction ops with
    | nil => intro st name v h; exact Or.inl h
    | cons op ops ih =>
      intro st name v h
      rcases ih (kv_step clientInit st op) name v h with hstep | ⟨hci, op2, hmem, hest⟩
      · cases hci : clientInit with
        | false =>
          subst hci
          cases op with
          | get n uc vault osEnv =>
            exact Or.inl (by simpa [kv_step, kv_get_secret] using hstep)
          | set n w vaultOutcome =>
            exact Or.inl (by simpa [kv_step, kv_set_secret] using hstep)
          | delete n vaultOutcome =>
            exact Or.inl (by simpa [kv_step, kv_delete_secret] using hstep)
          | clearCache =>
            simp [kv_step, kv_clear_cache, emptyCache] at hstep
        | true =>
          subst hci
          cases op with
          | get n uc vault osEnv =>
            by_cases hhit : (uc && (st.cache n).isSome) = true
            · exact Or.inl (by simpa [kv_step, kv_get_secret, hhit] using hstep)
            · cases vault with
              | err m =>
                exact Or.inl (by simpa [kv_step, kv_get_secret, hhit] using hstep)
              | ok w =>
                by_cases huc : uc = true
                · have hmiss : (st.cache n).isSome = false := by
                    rw [huc] at hhit
                    simpa using hhit
                  by_cases hnn : name = n
                  · subst hnn
                    have hwv : w = v := by
                      simpa [kv_step, kv_get_secret, hmiss, huc, cacheSet] using hstep
                    subst hwv
                    exact Or.inr ⟨rfl, .get name uc (.ok w) osEnv,
                      List.mem_cons_self _ _, rfl, huc, rfl⟩
                  · exact Or.inl (by
                      simpa [kv_step, kv_get_secret, hmiss, huc, cacheSet, hnn] using hstep)
                · exact Or.inl (by
                    simpa [kv_step, kv_get_secret, hhit, huc] using hstep)
          | set n w vaultOutcome =>
            cases vaultOutcome with
            | error m =>
              exact Or.inl (by simpa [kv_step, kv_set_secret] using hstep)
            | ok u =>
              by_cases hnn : name = n
              · subst hnn
                have hwv : w = v := by
                  simpa [kv_step, kv_set_secret, cacheSet] using hstep
                subst hwv
                exact Or.inr ⟨rfl, .set name w (.ok u), List.mem_cons_self _ _,
                  rfl, rfl, rfl⟩
              · exact Or.inl (by
                  simpa [kv_step, kv_set_secret, cacheSet, hnn] using hstep)
          | delete n vaultOutcome =>
            cases vaultOutcome with
            | error m =>
              exact Or.inl (by simpa [kv_step, kv_delete_secret] using hstep)
            | ok u =>
              simp only [kv_step, kv_delete_secret, Bool.not_true, Bool.false_eq_true,
                if_false, cacheRemove] at hstep
              by_cases hnn : name = n
              · simp [hnn] at hstep
              · simp only [if_neg hnn] at hstep
                exact Or.inl hstep
          | clearCache =>
            simp [kv_step, kv_clear_cache, emptyCache] at hstep
      · exact Or.inr ⟨hci, op2, List.mem_cons_of_mem _ hmem, hest⟩
  · intro st name v osEnv hmiss
    simp [kv_get_secret, hmiss]

/-- C4 witness: the invariant applied to a concrete one-step run names a
vault write as the entry's origin, and a get of an uncached name against
a recovered vault does a fresh round-trip returning the fresh value. -/
theorem cache_entries_origin_witness :
    (emptyCache "github-token" = some "tok" ∨
      (true = true ∧ ∃ op ∈ [KVOp.set "github-token" "tok" (Except.ok ())],
        establishes "github-token" "tok" op)) ∧
    kv_get_secret true emptyCache (.ok "fresh") "openai-api-key" true ⟨emptyCache⟩ =
      (some "fresh", ⟨cacheSet "openai-api-key" "fresh" emptyCache⟩, true) := by
  have h := cache_entries_only_from_vault_reads_or_writes true
  exact ⟨h.1 [KVOp.set "github-token" "tok" (Except.ok ())] ⟨emptyCache⟩
      "github-token" "tok" rfl,
    h.2 ⟨emptyCache⟩ "openai-api-key" "fresh" emptyCache rfl⟩

/-- C3 counterexample: with no vault client, no environment variable set
and no explicit fallback, `get_secret("database-url")` does not return
none — it returns the base-settings default for the derived attribute
name, `sqlite:///./assistant.db`. -/
theorem get_secret_returns_base_default_not_none :
    (secure_get_secret ⟨true, none, "", fun _ => none, default_base_settings⟩
      true true (.err "down") ⟨emptyCache⟩ "database-url" none).1 =
      .str "sqlite:///./assistant.db" ∧
    JVal.str "sqlite:///./assistant.db" ≠ JVal.null := by
  refine ⟨rfl, ?_⟩
  intro h
  cases h

/-- C3 (amended): `get_secret` never raises; with no available vault
client, or with an available client whose vault read fails on an
uncached unprefixed name, it resolves through the fallback chain — the
explicitly named environment variable or the one derived by upper-casing
the name with dashes to underscores, and, when that variable is unset,
the base-settings attribute of the lower-cased variable name (none only
when that is also absent). -/
theorem get_secret_fallback_resolution
    (senv : SettingsEnv) (importOk clientInit : Bool) (vault : VaultResp)
    (st : KVState) (name : String) (fb : Option String) :
    (((senv.use_key_vault && senv.azure_key_vault_url.isSome && importOk) && clientInit) = false →
      secure_get_secret senv importOk clientInit vault st name fb =
        (settings_fallback senv name fb, st)) ∧
    (senv.key_vault_secret_pfx = "" →
      ((senv.use_key_vault && senv.azure_key_vault_url.isSome && importOk) && clientInit) = true →
      st.cache name = none →
      (∀ m, vault = .err m →
        secure_get_secret senv importOk clientInit vault st name none =
          (settings_fallback senv name none, st))) ∧
    (senv.osEnv (fb.getD (envVarName name)) = none →
      settings_fallback senv name fb = senv.base_settings (pyLower (fb.getD (envVarName name)))) := by
  refine ⟨?_, ?_, ?_⟩
  · intro hoff
    simp only [secure_get_secret, hoff, if_false, Bool.false_eq_true]
  · intro hpfx hcfg hmiss m hm
    subst hm
    simp only [Bool.and_eq_true] at hcfg
    obtain ⟨⟨⟨hu, hurl⟩, himp⟩, hci⟩ := hcfg
    rcases hE : senv.osEnv (envVarName name) with _ | s
    · simp [secure_get_secret, hu, hurl, himp, hci, hpfx, kv_get_secret, hmiss, hE,
        settings_fallback]
    · by_cases hs : s = ""
      · subst hs
        simp [secure_get_secret, hu, hurl, himp, hci, hpfx, kv_get_secret, hmiss, hE,
          settings_fallback]
      · simp [secure_get_secret, hu, hurl, himp, hci, hpfx, kv_get_secret, hmiss, hE,
          settings_fallback, hs]
  · intro hE
    simp [settings_fallback, hE]

/-- C3 witness: with the vault disabled the resolver falls through to
the environment chain, and with an empty environment the chain ends at
the base-settings attribute. -/
theorem get_secret_fallback_witness :
    secure_get_secret ⟨true, none, "", fun _ => none, default_base_settings⟩
      true true (.err "down") ⟨emptyCache⟩ "asana-access-token" none =
      (settings_fallback ⟨true, none, "", fun _ => none, default_base_settings⟩
        "asana-access-token" none, ⟨emptyCache⟩) ∧
    settings_fallback ⟨true, none, "", fun _ => none, default_base_settings⟩
      "asana-access-token" none =
      default_base_settings (pyLower (envVarName "asana-access-token")) ∧
    secure_get_secret ⟨true, some "https://v.example", "", fun _ => none, default_base_settings⟩
      true true (.err "down") ⟨emptyCache⟩ "github-token" none =
      (settings_fallback ⟨true, some "https://v.example", "", fun _ => none, default_base_settings⟩
        "github-token" none, ⟨emptyCache⟩) := by
  have h := get_secret_fallback_resolution
    ⟨true, none, "", fun _ => none, default_base_settings⟩
    true true (.err "down") ⟨emptyCache⟩ "asana-access-token" none
  have h2 := get_secret_fallback_resolution
    ⟨true, some "https://v.example", "", fun _ => none, default_base_settings⟩
    true true (.err "down") ⟨emptyCache⟩ "github-token" none
  exact ⟨h.1 rfl, h.2.2 rfl, h2.2.1 rfl rfl rfl "down" rfl⟩
